import Mathlib

/-!
A shallow embedding of `nrks.py`, a pandas/filesystem pipeline that splits
per-song rhythm-game score CSVs by difficulty tier.

Modelling conventions:

* A loaded pandas DataFrame is modelled as a header (list of column names)
  plus a list of rows; every cell is modelled as a `String` (the difficulty
  and song-name cells the program inspects are strings in the data).
  `read_csv` yields unique column labels, and a missing cell
  (`row[i]? = none`) plays the role of pandas `NaN`: it compares unequal to
  every string, matching `NaN == 'EZ'` being `False`.
* Filesystem side effects (`os.rename`, `os.makedirs`, `shutil.move`,
  `to_csv` / `to_excel`) are recorded as an explicit list of `FsAction`s;
  the contents written by `to_csv` / `to_excel` are modelled as the
  DataFrame being serialized.
* Python exceptions (`KeyError`, `IndexError`, I/O errors) are modelled
  with `Except` / an `Option String` error slot.  The script contains no
  `try`/`except`, so an error ends the run with the actions performed so
  far; `runFiles` encodes exactly that.
* `os.path.join dir name` is modelled as `dir ++ "/" ++ name` (names never
  start with a separator here).
* Python `pat in s` and `s.replace(pat, '')` (for the fixed nonempty
  pattern `'_combined'`) scan the characters left to right, matching
  non-overlapping occurrences; they are embedded as structural recursions
  over `List Char` (`containsSub`, `removeOccAux`).  The fuel argument of
  `removeOccAux` is initialized to the length of the scanned list, which a
  step of the scan never exhausts for a nonempty pattern.
* The final `shutil.move(output_dir, os.path.join(current_dir,
  "generated_files"))` in `main` moves the directory onto its own path;
  `shutil.move` detects the same file and performs a same-path
  `os.rename`, a no-op, so it is not modelled as an action.
-/

namespace PhiSaveSong

/-- Shallow model of a loaded pandas DataFrame: named columns and rows of
string cells, aligned positionally with the header. -/
structure DataFrame where
  cols : List String
  rows : List (List String)
deriving DecidableEq

/-- Output formats used by the script (`to_csv` and `to_excel`). -/
inductive FileFormat
  | csv
  | xlsx
deriving DecidableEq

/-- A file written by the script: its path, format, and the DataFrame
serialized into it. -/
structure OutFile where
  path : String
  fmt : FileFormat
  content : DataFrame
deriving DecidableEq

/-- Filesystem side effects performed by the script, in order. -/
inductive FsAction
  | rename (src dst : String)
  | mkdir (path : String)
  | move (src dst : String)
  | write (file : OutFile)
deriving DecidableEq

/-- The marker substring stripped from filenames (`'_combined'`). -/
def marker : String := "_combined"

/-- Does `pat` occur as a contiguous sublist of `s`?  Embeds Python
`pat in s` for a nonempty `pat`. -/
def containsSub (pat : List Char) : List Char → Bool
  | [] => pat.isEmpty
  | c :: cs => pat.isPrefixOf (c :: cs) || containsSub pat cs

/-- Left-to-right scan of Python `s.replace(pat, '')`: at each position,
if `pat` starts here, delete it and resume after it, else keep the
character.  The fuel only bounds the recursion; a call with
`fuel = s.length` and a nonempty `pat` never reaches the exhaustion
branch. -/
def removeOccAux (pat : List Char) : Nat → List Char → List Char
  | _, [] => []
  | 0, rest => rest
  | Nat.succ n, c :: cs =>
    if pat.isPrefixOf (c :: cs) then removeOccAux pat n (List.drop pat.length (c :: cs))
    else c :: removeOccAux pat n cs

/-- Count of the occurrences that the same left-to-right scan matches. -/
def countOccAux (pat : List Char) : Nat → List Char → Nat
  | _, [] => 0
  | 0, _ => 0
  | Nat.succ n, c :: cs =>
    if pat.isPrefixOf (c :: cs) then 1 + countOccAux pat n (List.drop pat.length (c :: cs))
    else countOccAux pat n cs

/-- Python `pat in s` on strings. -/
def pythonContains (s pat : String) : Bool := containsSub pat.data s.data

/-- Python `s.replace(pat, '')` on strings: every leftmost non-overlapping
occurrence of `pat` is removed. -/
def removeAllOcc (s pat : String) : String := String.mk (removeOccAux pat.data s.data.length s.data)

/-- Number of leftmost non-overlapping occurrences of `pat` in `s`. -/
def occCount (s pat : String) : Nat := countOccAux pat.data s.data.length s.data

/-- Embedding of `remove_combined_suffix` (nrks.py lines 5-11): if the name
contains `'_combined'`, rename the file on disk to the name with the marker
removed and return the new name; otherwise return the name unchanged with
no filesystem action. -/
def remove_combined_suffix (file_path : String) : String × List FsAction :=
  if pythonContains file_path marker then
    let new_name := removeAllOcc file_path marker
    (new_name, [FsAction.rename file_path new_name])
  else
    (file_path, [])

/-- Model of `os.path.join` for the relative names used by the script. -/
def joinPath (a b : String) : String := a ++ "/" ++ b

/-- Embedding of `create_song_folder` (nrks.py lines 13-17):
`os.makedirs(..., exist_ok=True)` on `output_dir/song_name`. -/
def create_song_folder (song_name output_dir : String) : String × FsAction :=
  let song_folder := joinPath output_dir song_name
  (song_folder, FsAction.mkdir song_folder)

/-- The fixed difficulty enumeration of nrks.py line 21, in loop order. -/
def difficulties : List String := ["EZ", "HD", "IN", "AT"]

/-- One row of `df.drop(columns=[c])`: keep the cells whose column label
differs from `c` (cells are aligned with the header by position). -/
def dropColumnRow (cols : List String) (c : String) (row : List String) : List String :=
  (List.zip cols row).filterMap (fun p => if p.1 = c then none else some p.2)

/-- Embedding of `df.drop(columns=[c], errors='ignore')`: if the label is
present drop that column from header and every row, otherwise return the
frame unchanged (and raise no error). -/
def dropColumn (df : DataFrame) (c : String) : DataFrame :=
  if c ∈ df.cols then
    { cols := df.cols.filter (fun x => x ≠ c),
      rows := df.rows.map (dropColumnRow df.cols c) }
  else df

/-- Position of the `'difficulty'` column in the header, if present. -/
def difficultyIdx (df : DataFrame) : Option Nat :=
  df.cols.findIdx? (fun c => c == "difficulty")

/-- Embedding of `df[df['difficulty'] == d]` row selection: the rows whose
difficulty cell equals `d` (a missing column yields no rows here; the
caller `split_by_difficulty` raises before reaching that case). -/
def partitionRows (df : DataFrame) (d : String) : List (List String) :=
  match difficultyIdx df with
  | some i => df.rows.filter (fun row => row[i]? == some d)
  | none => []

/-- Files produced by one iteration of the loop in `split_by_difficulty`
(nrks.py lines 22-35): nothing when the tier's rows are empty, otherwise a
CSV and an XLSX holding the tier's rows with `song_name` dropped. -/
def tierFiles (df : DataFrame) (song_name song_folder d : String) : List OutFile :=
  let ddRows := partitionRows df d
  if ddRows.isEmpty then []
  else
    let dd := dropColumn { cols := df.cols, rows := ddRows } "song_name"
    [ { path := joinPath song_folder (song_name ++ "_" ++ d ++ ".csv"),
        fmt := FileFormat.csv, content := dd },
      { path := joinPath song_folder (song_name ++ "_" ++ d ++ ".xlsx"),
        fmt := FileFormat.xlsx, content := dd } ]

/-- Embedding of `split_by_difficulty` (nrks.py lines 19-35).  Accessing
`df['difficulty']` raises `KeyError` when the column is absent; otherwise
the four tiers are processed in the fixed order of `difficulties`. -/
def split_by_difficulty (df : DataFrame) (song_name song_folder : String) :
    Except String (List OutFile) :=
  match difficultyIdx df with
  | none => Except.error "KeyError: difficulty"
  | some _ => Except.ok (difficulties.flatMap (tierFiles df song_name song_folder))

/-- Embedding of `df['song_name'].iloc[0]` (nrks.py line 56): `KeyError`
when the column is absent, `IndexError` when the table has no rows. -/
def firstSongName (df : DataFrame) : Except String String :=
  match df.cols.findIdx? (fun c => c == "song_name") with
  | none => Except.error "KeyError: song_name"
  | some i =>
    match df.rows with
    | [] => Except.error "IndexError: single positional indexer is out-of-bounds"
    | r :: _ =>
      match r[i]? with
      | some v => Except.ok v
      | none => Except.error "TypeError: join of non-string value"

/-- Embedding of the per-file body of `main` (nrks.py lines 46-70).
`readTable` models `pd.read_csv` on the working directory.  Returns the
filesystem actions performed, and the error that aborted processing, if
any.  Note line 62 moves the file to `song_folder/file_name` using the
original `file_name`, not the normalized `file_path`. -/
def processFile (readTable : String → Except String DataFrame)
    (output_dir file_name : String) : List FsAction × Option String :=
  let r := remove_combined_suffix file_name
  let file_path := r.1
  let acts0 := r.2
  match readTable file_path with
  | Except.error e => (acts0, some e)
  | Except.ok df =>
    match firstSongName df with
    | Except.error e => (acts0, some e)
    | Except.ok song_name =>
      let sf := create_song_folder song_name output_dir
      let song_folder := sf.1
      let moveAct := FsAction.move file_path (joinPath song_folder file_name)
      let df_without_name := dropColumn df "song_name"
      let excelAct := FsAction.write
        { path := joinPath song_folder (song_name ++ ".xlsx"),
          fmt := FileFormat.xlsx, content := df_without_name }
      match split_by_difficulty df song_name song_folder with
      | Except.error e => (acts0 ++ [sf.2, moveAct, excelAct], some e)
      | Except.ok outs =>
        (acts0 ++ [sf.2, moveAct, excelAct] ++ outs.map FsAction.write, none)

/-- The `for file_name in files` loop of `main`: process files in order; an
uncaught error stops the whole run, keeping the actions performed so far
and processing no further file. -/
def runFiles (readTable : String → Except String DataFrame)
    (output_dir : String) : List String → List FsAction × Option String
  | [] => ([], none)
  | f :: rest =>
    match processFile readTable output_dir f with
    | (acts, some e) => (acts, some e)
    | (acts, none) =>
      let more := runFiles readTable output_dir rest
      (acts ++ more.1, more.2)

/-- Embedding of the input discovery of nrks.py line 43: the directory
entries ending in `.csv`, in listing order. -/
def discoverCsvFiles (listing : List String) : List String :=
  listing.filter (fun f => f.endsWith ".csv")

/-- Embedding of `main` (nrks.py lines 37-75): create the output directory
and process every discovered CSV file in order. -/
def mainRun (readTable : String → Except String DataFrame)
    (current_dir : String) (listing : List String) :
    List FsAction × Option String :=
  let output_dir := joinPath current_dir "generated_files"
  let r := runFiles readTable output_dir (discoverCsvFiles listing)
  (FsAction.mkdir output_dir :: r.1, r.2)

/-- Does this action write a file at path `p`? -/
def writesTo (p : String) : FsAction → Bool
  | FsAction.write f => f.path == p
  | _ => false

/-- Is this action a directory creation? -/
def isMkdir : FsAction → Bool
  | FsAction.mkdir _ => true
  | _ => false

/-- Sample table: four rows of one song across three tiers (the worked
example of the spec). -/
def sampleDf : DataFrame :=
  { cols := ["song_name", "difficulty", "score"],
    rows := [["Airglow", "EZ", "900000"],
             ["Airglow", "HD", "950000"],
             ["Airglow", "HD", "960000"],
             ["Airglow", "IN", "999999"]] }

/-- Sample table with a row whose difficulty value is outside the fixed
four-tier enumeration. -/
def strayDf : DataFrame :=
  { cols := ["song_name", "difficulty", "score"],
    rows := [["Airglow", "SP", "123456"]] }

/-- Sample empty table: header only, zero data rows. -/
def emptyDf : DataFrame :=
  { cols := ["song_name", "difficulty", "score"], rows := [] }

/-- Sample `read_csv` model: the working directory holds one readable
table under `Airglow.csv`. -/
def sampleRead (df : DataFrame) : String → Except String DataFrame :=
  fun p => if p = "Airglow.csv" then Except.ok df else Except.error "FileNotFoundError"

/-- Sample `read_csv` model where only `Airglow.csv` parses and every
other file raises a parse error. -/
def sampleRead2 : String → Except String DataFrame :=
  fun p => if p = "Airglow.csv" then Except.ok sampleDf else Except.error "ParserError"

/-! ### Lemmas about the marker scan -/

theorem isPrefixOf_length_le {pat s : List Char} (h : pat.isPrefixOf s = true) :
    pat.length ≤ s.length :=
  (List.isPrefixOf_iff_prefix.mp h).length_le

/-- Each occurrence matched by the scan accounts for `pat.length` deleted
characters: removed length plus `pat.length` per occurrence recovers the
input length (for every fuel value). -/
theorem removeOccAux_length (pat : List Char) :
    ∀ (fuel : Nat) (s : List Char),
      (removeOccAux pat fuel s).length + pat.length * countOccAux pat fuel s = s.length := by
  intro fuel
  induction fuel with
  | zero =>
    intro s
    cases s <;> simp [removeOccAux, countOccAux]
  | succ n ih =>
    intro s
    cases s with
    | nil => simp [removeOccAux, countOccAux]
    | cons c cs =>
      by_cases h : pat.isPrefixOf (c :: cs) = true
      · have hle : pat.length ≤ (c :: cs).length := isPrefixOf_length_le h
        simp only [removeOccAux, countOccAux, if_pos h]
        have hrec := ih (List.drop pat.length (c :: cs))
        rw [List.length_drop] at hrec
        rw [Nat.mul_add, Nat.mul_one]
        generalize pat.length * countOccAux pat n (List.drop pat.length (c :: cs)) = k at hrec ⊢
        simp only [List.length_cons] at hle hrec ⊢
        omega
      · simp only [removeOccAux, countOccAux, if_neg h, List.length_cons]
        have hrec := ih cs
        generalize pat.length * countOccAux pat n cs = k at hrec ⊢
        omega

/-- If the pattern occurs in `s` and the fuel is at least `s.length`, the
scan matches at least one occurrence. -/
theorem countOccAux_pos (pat : List Char) (hpat : pat ≠ []) :
    ∀ (fuel : Nat) (s : List Char), s.length ≤ fuel → containsSub pat s = true →
      1 ≤ countOccAux pat fuel s := by
  intro fuel
  induction fuel with
  | zero =>
    intro s hs hc
    cases s with
    | nil => simp [containsSub, List.isEmpty_iff] at hc; exact absurd hc hpat
    | cons c cs => simp at hs
  | succ n ih =>
    intro s hs hc
    cases s with
    | nil => simp [containsSub, List.isEmpty_iff] at hc; exact absurd hc hpat
    | cons c cs =>
      by_cases h : pat.isPrefixOf (c :: cs) = true
      · simp [countOccAux, h]
      · have hc2 : containsSub pat cs = true := by
          simp only [containsSub, h, Bool.false_or] at hc
          exact hc
        simp only [countOccAux, if_neg h]
        have hlen : cs.length ≤ n := by
          simp only [List.length_cons] at hs
          omega
        exact ih cs hlen hc2

/-! ### Claim C3: filename normalization -/

/-- Claim C3 counterexample: on `a_combined_combined.csv`, a name holding
the marker twice, `remove_combined_suffix` removes both occurrences and
returns `a.csv` (zero occurrences left), not a name with exactly one
occurrence removed (which would be `a_combined.csv`). -/
theorem c3_counterexample :
    occCount "a_combined_combined.csv" marker = 2 ∧
    (remove_combined_suffix "a_combined_combined.csv").1 = "a.csv" ∧
    (remove_combined_suffix "a_combined_combined.csv").1 ≠ "a_combined.csv" ∧
    occCount (remove_combined_suffix "a_combined_combined.csv").1 marker = 0 := by
  decide

/-- Claim C3 (amended): normalization returns a marker-free name unchanged
and performs no rename; on a name containing the marker it renames the file
to the returned name, which is the input with every leftmost
non-overlapping occurrence of the marker removed — the returned length is
the input length minus the marker length times the occurrence count, hence
strictly shorter. -/
theorem c3_spec (p : String) :
    (pythonContains p marker = false → remove_combined_suffix p = (p, [])) ∧
    (pythonContains p marker = true →
      remove_combined_suffix p =
        (removeAllOcc p marker, [FsAction.rename p (removeAllOcc p marker)]) ∧
      (removeAllOcc p marker).length + marker.length * occCount p marker = p.length ∧
      (removeAllOcc p marker).length < p.length) := by
  constructor
  · intro h
    simp [remove_combined_suffix, h]
  · intro h
    have hA : (removeAllOcc p marker).length + 9 * occCount p marker = p.length := by
      have hl := removeOccAux_length marker.data p.data.length p.data
      have h9 : marker.data.length = 9 := rfl
      rw [h9] at hl
      exact hl
    have hB : 1 ≤ occCount p marker :=
      countOccAux_pos marker.data (by decide) p.data.length p.data le_rfl h
    refine ⟨by simp [remove_combined_suffix, h], ?_, ?_⟩
    · have h9 : marker.length = 9 := rfl
      rw [h9]
      exact hA
    · omega

/-- Witness for the amended C3: both branches at concrete names. -/
theorem c3_witness :
    pythonContains "song.csv" marker = false ∧
    pythonContains "song_combined.csv" marker = true ∧
    remove_combined_suffix "song.csv" = ("song.csv", []) ∧
    remove_combined_suffix "song_combined.csv" =
      ("song.csv", [FsAction.rename "song_combined.csv" "song.csv"]) := by
  refine ⟨by decide, by decide, (c3_spec "song.csv").1 (by decide), ?_⟩
  have h := ((c3_spec "song_combined.csv").2 (by decide)).1
  rw [h]
  decide

/-! ### Lemmas about partitions -/

theorem mem_partitionRows {df : DataFrame} {i : Nat}
    (hi : difficultyIdx df = some i) {d : String} {r : List String} :
    r ∈ partitionRows df d ↔ r ∈ df.rows ∧ r[i]? = some d := by
  simp [partitionRows, hi, List.mem_filter]

theorem partitionRows_sub {df : DataFrame} {d : String} {r : List String}
    (h : r ∈ partitionRows df d) : r ∈ df.rows := by
  unfold partitionRows at h
  cases hidx : difficultyIdx df with
  | none => rw [hidx] at h; simp at h
  | some i => rw [hidx] at h; exact (List.mem_filter.mp h).1

/-! ### Lemmas about column dropping -/

theorem dropColumn_cols (df : DataFrame) (c : String) :
    (dropColumn df c).cols = df.cols.filter (fun x => x ≠ c) := by
  unfold dropColumn
  split
  · rfl
  · next h =>
    refine (List.filter_eq_self.mpr ?_).symm
    intro a ha
    simp only [ne_eq, decide_eq_true_eq]
    exact fun e => h (e ▸ ha)

theorem not_mem_dropColumn_cols (df : DataFrame) (c : String) :
    c ∉ (dropColumn df c).cols := by
  rw [dropColumn_cols]
  intro h
  have hc := (List.mem_filter.mp h).2
  simp at hc

theorem dropColumn_rows_of_mem {df : DataFrame} {c : String} (h : c ∈ df.cols) :
    (dropColumn df c).rows = df.rows.map (dropColumnRow df.cols c) := by
  unfold dropColumn
  rw [if_pos h]

theorem dropColumn_rows_of_not_mem {df : DataFrame} {c : String} (h : c ∉ df.cols) :
    (dropColumn df c).rows = df.rows := by
  unfold dropColumn
  rw [if_neg h]

theorem dropColumn_rows_length (df : DataFrame) (c : String) :
    (dropColumn df c).rows.length = df.rows.length := by
  unfold dropColumn
  split <;> simp

/-! ### Claim C1: partition-by-tier as a split of the table -/

/-- Claim C1 counterexample: a table whose single row has difficulty `SP`
is not covered by the four tier partitions, so their union is not the full
row set. -/
theorem c1_counterexample :
    ["Airglow", "SP", "123456"] ∈ strayDf.rows ∧
    ∀ d ∈ difficulties, ["Airglow", "SP", "123456"] ∉ partitionRows strayDf d := by
  decide

/-- Claim C1 (amended): with the difficulty column present at index `i`,
the tier partitions are pairwise disjoint subsequences of the table; their
union is the full row set provided every row's difficulty cell is one of
the four tiers; and a row whose difficulty value lies outside the
enumeration belongs to none of the four partitions. -/
theorem c1_spec (df : DataFrame) (i : Nat) (hi : difficultyIdx df = some i) :
    (∀ d e : String, d ≠ e → ∀ r ∈ partitionRows df d, r ∉ partitionRows df e) ∧
    (∀ d : String, ∀ r ∈ partitionRows df d, r ∈ df.rows) ∧
    ((∀ r ∈ df.rows, ∃ v, r[i]? = some v ∧ v ∈ difficulties) →
      ∀ r ∈ df.rows, ∃ d ∈ difficulties, r ∈ partitionRows df d) ∧
    (∀ r ∈ df.rows, ∀ v, r[i]? = some v → v ∉ difficulties →
      ∀ d ∈ difficulties, r ∉ partitionRows df d) := by
  refine ⟨?_, ?_, ?_, ?_⟩
  · intro d e hde r hd he
    have h1 := (mem_partitionRows hi).mp hd
    have h2 := (mem_partitionRows hi).mp he
    exact hde (Option.some.inj (h1.2.symm.trans h2.2))
  · intro d r hr
    exact partitionRows_sub hr
  · intro hall r hr
    obtain ⟨v, hv, hvd⟩ := hall r hr
    exact ⟨v, hvd, (mem_partitionRows hi).mpr ⟨hr, hv⟩⟩
  · intro r hr v hv hvd d hd hmem
    have h1 := (mem_partitionRows hi).mp hmem
    rw [hv] at h1
    exact hvd (Option.some.inj h1.2 ▸ hd)

/-- Witness for the amended C1 at the sample table. -/
theorem c1_witness :
    difficultyIdx sampleDf = some 1 ∧
    ((∀ d e : String, d ≠ e →
        ∀ r ∈ partitionRows sampleDf d, r ∉ partitionRows sampleDf e) ∧
     (∀ d : String, ∀ r ∈ partitionRows sampleDf d, r ∈ sampleDf.rows) ∧
     ((∀ r ∈ sampleDf.rows, ∃ v, r[1]? = some v ∧ v ∈ difficulties) →
       ∀ r ∈ sampleDf.rows, ∃ d ∈ difficulties, r ∈ partitionRows sampleDf d) ∧
     (∀ r ∈ sampleDf.rows, ∀ v, r[1]? = some v → v ∉ difficulties →
       ∀ d ∈ difficulties, r ∉ partitionRows sampleDf d)) :=
  ⟨by decide, c1_spec sampleDf 1 (by decide)⟩

/-! ### Claim C2: content of the per-tier files -/

/-- Claim C2: for every tier with a non-empty partition the partitioner
emits a CSV and an XLSX for that tier whose serialized table holds exactly
the partition's rows in their original relative order, with the song-name
column absent and all remaining columns in their original order. -/
theorem c2_spec (df : DataFrame) (i : Nat) (hi : difficultyIdx df = some i)
    (d : String) (hd : d ∈ difficulties) (s f : String)
    (hne : partitionRows df d ≠ []) :
    ∃ outs, split_by_difficulty df s f = Except.ok outs ∧
      (let content := dropColumn { cols := df.cols, rows := partitionRows df d } "song_name"
       OutFile.mk (joinPath f (s ++ "_" ++ d ++ ".csv")) FileFormat.csv content ∈ outs ∧
       OutFile.mk (joinPath f (s ++ "_" ++ d ++ ".xlsx")) FileFormat.xlsx content ∈ outs ∧
       "song_name" ∉ content.cols ∧
       content.cols = df.cols.filter (fun x => x ≠ "song_name") ∧
       content.rows.length = (partitionRows df d).length ∧
       ("song_name" ∈ df.cols →
         content.rows = (partitionRows df d).map (dropColumnRow df.cols "song_name")) ∧
       ("song_name" ∉ df.cols → content.rows = partitionRows df d)) := by
  refine ⟨difficulties.flatMap (tierFiles df s f), ?_, ?_, ?_, ?_, ?_, ?_, ?_, ?_⟩
  · unfold split_by_difficulty
    rw [hi]
  · refine List.mem_flatMap.mpr ⟨d, hd, ?_⟩
    unfold tierFiles
    rw [if_neg (by simpa [List.isEmpty_iff] using hne)]
    simp
  · refine List.mem_flatMap.mpr ⟨d, hd, ?_⟩
    unfold tierFiles
    rw [if_neg (by simpa [List.isEmpty_iff] using hne)]
    simp
  · exact not_mem_dropColumn_cols _ "song_name"
  · exact dropColumn_cols _ "song_name"
  · exact dropColumn_rows_length _ "song_name"
  · intro hmem
    exact dropColumn_rows_of_mem hmem
  · intro hmem
    exact dropColumn_rows_of_not_mem hmem

/-- Witness for C2 at the sample table, tier `HD`. -/
theorem c2_witness :
    difficultyIdx sampleDf = some 1 ∧ "HD" ∈ difficulties ∧
    partitionRows sampleDf "HD" ≠ [] ∧
    (∃ outs,
      split_by_difficulty sampleDf "Airglow" "generated_files/Airglow" = Except.ok outs ∧
      (let content :=
         dropColumn { cols := sampleDf.cols, rows := partitionRows sampleDf "HD" } "song_name"
       OutFile.mk (joinPath "generated_files/Airglow" ("Airglow" ++ "_" ++ "HD" ++ ".csv"))
         FileFormat.csv content ∈ outs ∧
       OutFile.mk (joinPath "generated_files/Airglow" ("Airglow" ++ "_" ++ "HD" ++ ".xlsx"))
         FileFormat.xlsx content ∈ outs ∧
       "song_name" ∉ content.cols ∧
       content.cols = sampleDf.cols.filter (fun x => x ≠ "song_name") ∧
       content.rows.length = (partitionRows sampleDf "HD").length ∧
       ("song_name" ∈ sampleDf.cols →
         content.rows =
           (partitionRows sampleDf "HD").map (dropColumnRow sampleDf.cols "song_name")) ∧
       ("song_name" ∉ sampleDf.cols → content.rows = partitionRows sampleDf "HD"))) :=
  ⟨by decide, by decide, by decide,
    c2_spec sampleDf 1 (by decide) "HD" (by decide) "Airglow" "generated_files/Airglow"
      (by decide)⟩

/-! ### Lemmas about output paths -/

theorem append_mid_inj (A d e d' e' : String) (hlen : d.length = d'.length)
    (h : A ++ d ++ e = A ++ d' ++ e') : d = d' ∧ e = e' := by
  have hdata := congrArg String.data h
  simp only [String.data_append] at hdata
  rw [List.append_assoc, List.append_assoc] at hdata
  have h4 := List.append_cancel_left hdata
  have hlen2 : d.data.length = d'.data.length := hlen
  obtain ⟨hde, hee⟩ := List.append_inj h4 hlen2
  exact ⟨String.ext hde, String.ext hee⟩

theorem tierPath_inj {f s d d' e e' : String} (hlen : d.length = d'.length)
    (h : joinPath f (s ++ "_" ++ d ++ e) = joinPath f (s ++ "_" ++ d' ++ e')) :
    d = d' ∧ e = e' := by
  have e1 : (f ++ "/" ++ (s ++ "_")) ++ d ++ e = joinPath f (s ++ "_" ++ d ++ e) := by
    simp [joinPath, String.append_assoc]
  have e2 : (f ++ "/" ++ (s ++ "_")) ++ d' ++ e' = joinPath f (s ++ "_" ++ d' ++ e') := by
    simp [joinPath, String.append_assoc]
  exact append_mid_inj _ _ _ _ _ hlen (by rw [e1, e2, h])

/-! ### Claim C4: empty tiers are skipped silently -/

/-- Claim C4: for a tier whose partition is empty the partitioner raises
no error and emits no file at that tier's CSV or XLSX path. -/
theorem c4_spec (df : DataFrame) (i : Nat) (hi : difficultyIdx df = some i)
    (d : String) (hd : d ∈ difficulties) (s f : String)
    (hemp : partitionRows df d = []) :
    ∃ outs, split_by_difficulty df s f = Except.ok outs ∧
      ∀ o ∈ outs, o.path ≠ joinPath f (s ++ "_" ++ d ++ ".csv") ∧
                  o.path ≠ joinPath f (s ++ "_" ++ d ++ ".xlsx") := by
  refine ⟨difficulties.flatMap (tierFiles df s f), by unfold split_by_difficulty; rw [hi], ?_⟩
  intro o ho
  obtain ⟨d', hd', ho'⟩ := List.mem_flatMap.mp ho
  unfold tierFiles at ho'
  cases hne : (partitionRows df d').isEmpty with
  | true => rw [if_pos hne] at ho'; simp at ho'
  | false =>
    rw [if_neg (by simp [hne])] at ho'
    have hdd : d' ≠ d := by
      intro hEq
      rw [hEq, hemp] at hne
      simp at hne
    have hlen : d'.length = d.length := by
      have hall : ∀ x ∈ difficulties, x.length = 2 := by decide
      rw [hall d' hd', hall d hd]
    have key : ∀ x y : String,
        joinPath f (s ++ "_" ++ d' ++ x) ≠ joinPath f (s ++ "_" ++ d ++ y) := by
      intro x y heq
      exact hdd (tierPath_inj hlen heq).1
    simp only [List.mem_cons, List.not_mem_nil, or_false] at ho'
    rcases ho' with h1 | h1 <;> subst h1 <;> exact ⟨key _ _, key _ _⟩

/-- Witness for C4 at the sample table, tier `AT` (no `AT` rows). -/
theorem c4_witness :
    difficultyIdx sampleDf = some 1 ∧ "AT" ∈ difficulties ∧
    partitionRows sampleDf "AT" = [] ∧
    (∃ outs,
      split_by_difficulty sampleDf "Airglow" "generated_files/Airglow" = Except.ok outs ∧
      ∀ o ∈ outs,
        o.path ≠ joinPath "generated_files/Airglow" ("Airglow" ++ "_" ++ "AT" ++ ".csv") ∧
        o.path ≠ joinPath "generated_files/Airglow" ("Airglow" ++ "_" ++ "AT" ++ ".xlsx")) :=
  ⟨by decide, by decide, by decide,
    c4_spec sampleDf 1 (by decide) "AT" (by decide) "Airglow" "generated_files/Airglow"
      (by decide)⟩

/-! ### Lemmas about the per-file pipeline -/

theorem remove_combined_suffix_actions (file_name : String) :
    (remove_combined_suffix file_name).2 = [] ∨
    ∃ nn, (remove_combined_suffix file_name).2 = [FsAction.rename file_name nn] := by
  unfold remove_combined_suffix
  by_cases hc : pythonContains file_name marker = true
  · rw [if_pos hc]
    exact Or.inr ⟨_, rfl⟩
  · rw [if_neg hc]
    exact Or.inl rfl

/-! ### Claim C5: an empty table fails before the song folder is created -/

/-- Claim C5: on a header-only table (zero rows) reading the song
identifier from the first record fails, the run stops with an error, and
the only action that may have happened is the normalizer's rename — in
particular no directory was created. -/
theorem c5_spec (readTable : String → Except String DataFrame)
    (output_dir file_name : String) (df : DataFrame)
    (hread : readTable (remove_combined_suffix file_name).1 = Except.ok df)
    (hrows : df.rows = []) :
    ∃ e, processFile readTable output_dir file_name =
        ((remove_combined_suffix file_name).2, some e) ∧
      ∀ a ∈ (remove_combined_suffix file_name).2, isMkdir a = false := by
  obtain ⟨e, he⟩ : ∃ e, firstSongName df = Except.error e := by
    unfold firstSongName
    cases hidx : df.cols.findIdx? (fun c => c == "song_name") with
    | none => simp
    | some i => simp [hrows]
  refine ⟨e, ?_, ?_⟩
  · simp only [processFile, hread, he]
  · intro a ha
    rcases remove_combined_suffix_actions file_name with hact | ⟨nn, hact⟩
    · rw [hact] at ha
      simp at ha
    · rw [hact] at ha
      simp only [List.mem_singleton] at ha
      subst ha
      rfl

/-- Witness for C5: the sample empty table aborts the pipeline with only
the (empty) rename action performed. -/
theorem c5_witness :
    sampleRead emptyDf (remove_combined_suffix "Airglow.csv").1 = Except.ok emptyDf ∧
    emptyDf.rows = [] ∧
    (∃ e, processFile (sampleRead emptyDf) "generated_files" "Airglow.csv" =
        ((remove_combined_suffix "Airglow.csv").2, some e) ∧
      ∀ a ∈ (remove_combined_suffix "Airglow.csv").2, isMkdir a = false) :=
  ⟨rfl, rfl,
    c5_spec (sampleRead emptyDf) "generated_files" "Airglow.csv" emptyDf rfl rfl⟩

/-! ### Claim C6: under which name is the input file relocated? -/

/-- Claim C6 counterexample: processing `Airglow_combined.csv` (renamed on
disk to `Airglow.csv` by the normalizer) moves the file into the song
folder under the original marker-containing name
`generated_files/Airglow/Airglow_combined.csv`, and no action stores it
under the normalized name `generated_files/Airglow/Airglow.csv`. -/
theorem c6_counterexample :
    FsAction.move "Airglow.csv" "generated_files/Airglow/Airglow_combined.csv"
      ∈ (processFile (sampleRead sampleDf) "generated_files" "Airglow_combined.csv").1 ∧
    ∀ a ∈ (processFile (sampleRead sampleDf) "generated_files" "Airglow_combined.csv").1,
      a ≠ FsAction.move "Airglow.csv" "generated_files/Airglow/Airglow.csv" := by
  decide

/-- Claim C6 (amended): the relocated file's destination keeps the
original discovered `file_name` as its basename (marker included), while
the source of the move is the normalized on-disk name. -/
theorem c6_spec (readTable : String → Except String DataFrame)
    (output_dir file_name : String) (df : DataFrame) (song : String)
    (hread : readTable (remove_combined_suffix file_name).1 = Except.ok df)
    (hsong : firstSongName df = Except.ok song) :
    FsAction.move (remove_combined_suffix file_name).1
        (joinPath (joinPath output_dir song) file_name)
      ∈ (processFile readTable output_dir file_name).1 := by
  cases hsp : split_by_difficulty df song (joinPath output_dir song) with
  | error e =>
    simp only [processFile, hread, hsong, create_song_folder, hsp]
    simp [List.mem_append]
  | ok outs =>
    simp only [processFile, hread, hsong, create_song_folder, hsp]
    simp [List.mem_append]

/-- Witness for the amended C6 at a marker-containing input name. -/
theorem c6_witness :
    sampleRead sampleDf (remove_combined_suffix "Airglow_combined.csv").1 =
      Except.ok sampleDf ∧
    firstSongName sampleDf = Except.ok "Airglow" ∧
    FsAction.move (remove_combined_suffix "Airglow_combined.csv").1
        (joinPath (joinPath "generated_files" "Airglow") "Airglow_combined.csv")
      ∈ (processFile (sampleRead sampleDf) "generated_files" "Airglow_combined.csv").1 :=
  ⟨rfl, rfl,
    c6_spec (sampleRead sampleDf) "generated_files" "Airglow_combined.csv" sampleDf
      "Airglow" rfl rfl⟩

/-! ### Claim C7: an error aborts the whole run -/

/-- Claim C7: no error is caught or retried: when every file before `f`
processes cleanly and `f` fails, the run returns exactly the actions of
the earlier files (kept, not rolled back) followed by `f`'s partial
actions, reports the error, and never processes the files after `f`. -/
theorem c7_spec (readTable : String → Except String DataFrame)
    (output_dir : String) (pre : List String) (f : String) (post : List String) (e : String)
    (hpre : ∀ g ∈ pre, (processFile readTable output_dir g).2 = none)
    (hf : (processFile readTable output_dir f).2 = some e) :
    runFiles readTable output_dir (pre ++ f :: post) =
      (pre.flatMap (fun g => (processFile readTable output_dir g).1) ++
        (processFile readTable output_dir f).1, some e) := by
  induction pre with
  | nil =>
    cases hp : processFile readTable output_dir f with
    | mk acts opt =>
      rw [hp] at hf
      have hf2 : opt = some e := hf
      subst hf2
      simp [runFiles, hp]
  | cons g gs ih =>
    cases hp : processFile readTable output_dir g with
    | mk acts opt =>
      have hg : (acts, opt).2 = none := hp ▸ hpre g (by simp)
      have hg2 : opt = none := hg
      subst hg2
      have ih2 := ih (fun x hx => hpre x (by simp [hx]))
      simp only [List.cons_append, runFiles, hp, List.flatMap_cons, List.append_eq]
      rw [ih2]
      simp [List.append_assoc]

/-- Witness for C7: `Airglow.csv` succeeds, `Broken.csv` fails to parse,
`Never.csv` is behind the failure and contributes nothing. -/
theorem c7_witness :
    (∀ g ∈ ["Airglow.csv"], (processFile sampleRead2 "generated_files" g).2 = none) ∧
    (processFile sampleRead2 "generated_files" "Broken.csv").2 = some "ParserError" ∧
    runFiles sampleRead2 "generated_files" (["Airglow.csv"] ++ "Broken.csv" :: ["Never.csv"]) =
      (["Airglow.csv"].flatMap (fun g => (processFile sampleRead2 "generated_files" g).1) ++
        (processFile sampleRead2 "generated_files" "Broken.csv").1, some "ParserError") :=
  ⟨by decide, by decide,
    c7_spec sampleRead2 "generated_files" ["Airglow.csv"] "Broken.csv" ["Never.csv"]
      "ParserError" (by decide) (by decide)⟩

/-! ### Decomposition of a successful per-file run -/

theorem processFile_success (readTable : String → Except String DataFrame)
    (output_dir file_name : String) (df : DataFrame) (song : String) (i : Nat)
    (hread : readTable (remove_combined_suffix file_name).1 = Except.ok df)
    (hsong : firstSongName df = Except.ok song)
    (hi : difficultyIdx df = some i) :
    processFile readTable output_dir file_name =
      ((remove_combined_suffix file_name).2 ++
        [FsAction.mkdir (joinPath output_dir song),
         FsAction.move (remove_combined_suffix file_name).1
           (joinPath (joinPath output_dir song) file_name),
         FsAction.write (OutFile.mk (joinPath (joinPath output_dir song) (song ++ ".xlsx"))
           FileFormat.xlsx (dropColumn df "song_name"))] ++
        (difficulties.flatMap
          (tierFiles df song (joinPath output_dir song))).map FsAction.write, none) := by
  have hsp : split_by_difficulty df song (joinPath output_dir song) =
      Except.ok (difficulties.flatMap (tierFiles df song (joinPath output_dir song))) := by
    unfold split_by_difficulty
    rw [hi]
  simp only [processFile, hread, hsong, create_song_folder, hsp]

theorem ne_of_length_ne {a b : String} (h : a.length ≠ b.length) : a ≠ b :=
  fun e => h (by rw [e])

theorem tierPath_ne_wholePath (f s d ext : String) (hd : d.length = 2)
    (hx : ext.length = 4 ∨ ext.length = 5) :
    joinPath f (s ++ "_" ++ d ++ ext) ≠ joinPath f (s ++ ".xlsx") := by
  apply ne_of_length_ne
  have h1 : ("/" : String).length = 1 := rfl
  have h2 : ("_" : String).length = 1 := rfl
  have h3 : (".xlsx" : String).length = 5 := rfl
  simp only [joinPath, String.length_append, h1, h2, h3, hd]
  omega

theorem tierFiles_path_shape {df : DataFrame} {s f d : String} :
    ∀ o ∈ tierFiles df s f d,
      o.path = joinPath f (s ++ "_" ++ d ++ ".csv") ∨
      o.path = joinPath f (s ++ "_" ++ d ++ ".xlsx") := by
  intro o ho
  unfold tierFiles at ho
  cases hne : (partitionRows df d).isEmpty with
  | true => rw [if_pos hne] at ho; simp at ho
  | false =>
    rw [if_neg (by simp [hne])] at ho
    simp only [List.mem_cons, List.not_mem_nil, or_false] at ho
    rcases ho with h | h <;> subst h
    · exact Or.inl rfl
    · exact Or.inr rfl

theorem tierFiles_content_rows {df : DataFrame} {s f d : String}
    (hsn : "song_name" ∈ df.cols) :
    ∀ o ∈ tierFiles df s f d,
      o.content.rows = (partitionRows df d).map (dropColumnRow df.cols "song_name") := by
  intro o ho
  unfold tierFiles at ho
  cases hne : (partitionRows df d).isEmpty with
  | true => rw [if_pos hne] at ho; simp at ho
  | false =>
    rw [if_neg (by simp [hne])] at ho
    have hrows :=
      @dropColumn_rows_of_mem { cols := df.cols, rows := partitionRows df d } "song_name" hsn
    simp only [List.mem_cons, List.not_mem_nil, or_false] at ho
    rcases ho with h | h <;> subst h <;> exact hrows

theorem findIdx?_beq_mem {s : String} :
    ∀ (l : List String) (st j : Nat), l.findIdx? (fun c => c == s) st = some j → s ∈ l := by
  intro l
  induction l with
  | nil => intro st j h; simp [List.findIdx?] at h
  | cons a as ih =>
    intro st j h
    rw [List.findIdx?_cons] at h
    by_cases ha : (a == s) = true
    · simp only [beq_iff_eq] at ha
      simp [ha]
    · rw [if_neg ha] at h
      exact List.mem_cons_of_mem a (ih (st + 1) j h)

theorem firstSongName_col_mem {df : DataFrame} {song : String}
    (h : firstSongName df = Except.ok song) : "song_name" ∈ df.cols := by
  unfold firstSongName at h
  cases hidx : df.cols.findIdx? (fun c => c == "song_name") with
  | none => rw [hidx] at h; exact absurd h (by simp)
  | some i => exact findIdx?_beq_mem df.cols 0 i hidx

/-! ### Claim C8: the whole-song export -/

/-- Claim C8: on a successful per-file run exactly one write targets the
whole-song path `{song}.xlsx` inside the song folder; it serializes the
full table with the song-name column dropped (same row count, remaining
columns in original order, song-name column absent), and the column drop
tolerates an absent song-name column without error. -/
theorem c8_spec (readTable : String → Except String DataFrame)
    (output_dir file_name : String) (df : DataFrame) (song : String) (i : Nat)
    (hread : readTable (remove_combined_suffix file_name).1 = Except.ok df)
    (hsong : firstSongName df = Except.ok song)
    (hi : difficultyIdx df = some i) :
    (processFile readTable output_dir file_name).2 = none ∧
    (processFile readTable output_dir file_name).1.filter
        (writesTo (joinPath (joinPath output_dir song) (song ++ ".xlsx"))) =
      [FsAction.write (OutFile.mk (joinPath (joinPath output_dir song) (song ++ ".xlsx"))
        FileFormat.xlsx (dropColumn df "song_name"))] ∧
    (dropColumn df "song_name").rows.length = df.rows.length ∧
    (dropColumn df "song_name").cols = df.cols.filter (fun x => x ≠ "song_name") ∧
    "song_name" ∉ (dropColumn df "song_name").cols ∧
    (∀ df2 : DataFrame, "song_name" ∉ df2.cols → dropColumn df2 "song_name" = df2) := by
  have hdec := processFile_success readTable output_dir file_name df song i hread hsong hi
  refine ⟨by rw [hdec], ?_, dropColumn_rows_length df _, dropColumn_cols df _,
    not_mem_dropColumn_cols df _, fun df2 h => by unfold dropColumn; rw [if_neg h]⟩
  rw [hdec]
  simp only [List.filter_append]
  have hA : (remove_combined_suffix file_name).2.filter
      (writesTo (joinPath (joinPath output_dir song) (song ++ ".xlsx"))) = [] := by
    rcases remove_combined_suffix_actions file_name with h | ⟨nn, h⟩ <;> rw [h] <;> rfl
  have hC : ((difficulties.flatMap
        (tierFiles df song (joinPath output_dir song))).map FsAction.write).filter
      (writesTo (joinPath (joinPath output_dir song) (song ++ ".xlsx"))) = [] := by
    rw [List.filter_eq_nil_iff]
    intro a ha
    obtain ⟨o, ho, rfl⟩ := List.mem_map.mp ha
    obtain ⟨d2, hd2, ho2⟩ := List.mem_flatMap.mp ho
    have hshape := tierFiles_path_shape o ho2
    have hdlen : d2.length = 2 := by
      have hall : ∀ x ∈ difficulties, x.length = 2 := by decide
      exact hall d2 hd2
    intro hw
    have hpe : o.path = joinPath (joinPath output_dir song) (song ++ ".xlsx") := by
      simpa [writesTo] using hw
    rcases hshape with h | h <;> rw [h] at hpe
    · exact tierPath_ne_wholePath (joinPath output_dir song) song d2 ".csv" hdlen
        (Or.inl rfl) hpe
    · exact tierPath_ne_wholePath (joinPath output_dir song) song d2 ".xlsx" hdlen
        (Or.inr rfl) hpe
  rw [hA, hC]
  simp [List.filter, writesTo]

/-- Witness for C8 at the sample table. -/
theorem c8_witness :
    sampleRead sampleDf (remove_combined_suffix "Airglow.csv").1 = Except.ok sampleDf ∧
    firstSongName sampleDf = Except.ok "Airglow" ∧
    difficultyIdx sampleDf = some 1 ∧
    ((processFile (sampleRead sampleDf) "generated_files" "Airglow.csv").2 = none ∧
     (processFile (sampleRead sampleDf) "generated_files" "Airglow.csv").1.filter
         (writesTo (joinPath (joinPath "generated_files" "Airglow") ("Airglow" ++ ".xlsx"))) =
       [FsAction.write
         (OutFile.mk (joinPath (joinPath "generated_files" "Airglow") ("Airglow" ++ ".xlsx"))
           FileFormat.xlsx (dropColumn sampleDf "song_name"))] ∧
     (dropColumn sampleDf "song_name").rows.length = sampleDf.rows.length ∧
     (dropColumn sampleDf "song_name").cols =
       sampleDf.cols.filter (fun x => x ≠ "song_name") ∧
     "song_name" ∉ (dropColumn sampleDf "song_name").cols ∧
     (∀ df2 : DataFrame, "song_name" ∉ df2.cols → dropColumn df2 "song_name" = df2)) :=
  ⟨rfl, rfl, by decide,
    c8_spec (sampleRead sampleDf) "generated_files" "Airglow.csv" sampleDf "Airglow" 1
      rfl rfl (by decide)⟩

/-! ### Claim C9: the export's column drop leaves the loaded table intact -/

/-- Claim C9: the whole-song export's column drop produces a separate
frame (`drop` without `inplace` copies), so the partitioner that runs next
receives the originally loaded table itself: its outputs are exactly
`split_by_difficulty` of that table, the table still holds the song-name
column, and each tier partition filters the full original row list. -/
theorem c9_spec (readTable : String → Except String DataFrame)
    (output_dir file_name : String) (df : DataFrame) (song : String) (i : Nat)
    (hread : readTable (remove_combined_suffix file_name).1 = Except.ok df)
    (hsong : firstSongName df = Except.ok song)
    (hi : difficultyIdx df = some i) :
    ∃ outs, split_by_difficulty df song (joinPath output_dir song) = Except.ok outs ∧
      (processFile readTable output_dir file_name).1 =
        (remove_combined_suffix file_name).2 ++
          [FsAction.mkdir (joinPath output_dir song),
           FsAction.move (remove_combined_suffix file_name).1
             (joinPath (joinPath output_dir song) file_name),
           FsAction.write (OutFile.mk (joinPath (joinPath output_dir song) (song ++ ".xlsx"))
             FileFormat.xlsx (dropColumn df "song_name"))] ++ outs.map FsAction.write ∧
      "song_name" ∈ df.cols ∧
      (∀ d r, r ∈ partitionRows df d ↔ r ∈ df.rows ∧ r[i]? = some d) := by
  refine ⟨difficulties.flatMap (tierFiles df song (joinPath output_dir song)), ?_, ?_, ?_, ?_⟩
  · unfold split_by_difficulty
    rw [hi]
  · rw [processFile_success readTable output_dir file_name df song i hread hsong hi]
  · exact firstSongName_col_mem hsong
  · intro d r
    exact mem_partitionRows hi

/-- Witness for C9 at the sample table. -/
theorem c9_witness :
    sampleRead sampleDf (remove_combined_suffix "Airglow.csv").1 = Except.ok sampleDf ∧
    firstSongName sampleDf = Except.ok "Airglow" ∧
    difficultyIdx sampleDf = some 1 ∧
    (∃ outs,
      split_by_difficulty sampleDf "Airglow" (joinPath "generated_files" "Airglow") =
        Except.ok outs ∧
      (processFile (sampleRead sampleDf) "generated_files" "Airglow.csv").1 =
        (remove_combined_suffix "Airglow.csv").2 ++
          [FsAction.mkdir (joinPath "generated_files" "Airglow"),
           FsAction.move (remove_combined_suffix "Airglow.csv").1
             (joinPath (joinPath "generated_files" "Airglow") "Airglow.csv"),
           FsAction.write
             (OutFile.mk (joinPath (joinPath "generated_files" "Airglow") ("Airglow" ++ ".xlsx"))
               FileFormat.xlsx (dropColumn sampleDf "song_name"))] ++ outs.map FsAction.write ∧
      "song_name" ∈ sampleDf.cols ∧
      (∀ d r, r ∈ partitionRows sampleDf d ↔ r ∈ sampleDf.rows ∧ r[1]? = some d)) :=
  ⟨rfl, rfl, by decide,
    c9_spec (sampleRead sampleDf) "generated_files" "Airglow.csv" sampleDf "Airglow" 1
      rfl rfl (by decide)⟩

/-! ### Claim C10: rows with an out-of-enumeration difficulty -/

/-- Claim C10: a row whose difficulty value is outside the four fixed
tiers belongs to no tier partition — and every per-tier file serializes
exactly the image of its partition under the column drop, so the row
reaches none of them — while the row's column-dropped image still appears
in the whole-song export content. -/
theorem c10_spec (df : DataFrame) (i : Nat) (hi : difficultyIdx df = some i)
    (r : List String) (hr : r ∈ df.rows) (v : String) (hv : r[i]? = some v)
    (hvd : v ∉ difficulties) (hsn : "song_name" ∈ df.cols) :
    (∀ d ∈ difficulties, r ∉ partitionRows df d) ∧
    (∀ s f d, ∀ o ∈ tierFiles df s f d,
      o.content.rows = (partitionRows df d).map (dropColumnRow df.cols "song_name")) ∧
    dropColumnRow df.cols "song_name" r ∈ (dropColumn df "song_name").rows := by
  refine ⟨?_, ?_, ?_⟩
  · intro d hd hmem
    have h1 := (mem_partitionRows hi).mp hmem
    rw [hv] at h1
    exact hvd (Option.some.inj h1.2 ▸ hd)
  · intro s f d o ho
    exact tierFiles_content_rows hsn o ho
  · rw [dropColumn_rows_of_mem hsn]
    exact List.mem_map_of_mem _ hr

/-- Witness for C10 at the stray-difficulty sample table. -/
theorem c10_witness :
    difficultyIdx strayDf = some 1 ∧
    ["Airglow", "SP", "123456"] ∈ strayDf.rows ∧
    (["Airglow", "SP", "123456"] : List String)[1]? = some "SP" ∧
    "SP" ∉ difficulties ∧
    "song_name" ∈ strayDf.cols ∧
    ((∀ d ∈ difficulties, ["Airglow", "SP", "123456"] ∉ partitionRows strayDf d) ∧
     (∀ s f d, ∀ o ∈ tierFiles strayDf s f d,
       o.content.rows = (partitionRows strayDf d).map (dropColumnRow strayDf.cols "song_name")) ∧
     dropColumnRow strayDf.cols "song_name" ["Airglow", "SP", "123456"] ∈
       (dropColumn strayDf "song_name").rows) :=
  ⟨by decide, by decide, by decide, by decide, by decide,
    c10_spec strayDf 1 (by decide) ["Airglow", "SP", "123456"] (by decide) "SP" (by decide)
      (by decide) (by decide)⟩

end PhiSaveSong
